import Mathlib

/-!
Verification of the PyIFT wrapper layer (`src/pyift/shortestpath.py`).

The repository file under verification is the thin validation wrapper around
the `_pyift` C extension (the IFT core).  We model numpy arrays as
shape + dtype + flat rational data, scipy CSR matrices by their observable
fields, and the opaque core as a record of functions that is passed in as a
parameter: theorems quantify over every possible core behaviour, and error
paths are shown to be independent of the core (the exception is raised before
the core executes).
-/

namespace PyIFT

/-- Numpy dtype, as far as the wrapper layer observes it. -/
inductive Dtype where
  | bool
  | int
  | float
deriving DecidableEq, Repr

/-- Model of a numpy `ndarray`: shape, dtype, and flat row-major data
(values modelled as rationals). -/
structure NDArray where
  shape : List Nat
  dtype : Dtype
  data : List Rat
deriving DecidableEq, Repr

/-- `a.ndim` : the number of axes. -/
def NDArray.ndim (a : NDArray) : Nat := a.shape.length

/-- `a.size` : the number of elements. -/
def NDArray.size (a : NDArray) : Nat := a.shape.prod

/-- `a.astype(bool)` : every nonzero entry becomes `True` (modelled as 1),
zero becomes `False` (modelled as 0); dtype becomes boolean. -/
def NDArray.astypeBool (a : NDArray) : NDArray :=
  { shape := a.shape, dtype := .bool
    data := a.data.map fun v => if v = 0 then 0 else 1 }

/-- `np.expand_dims(a, a.ndim)` : insert a trailing axis of extent 1 (both
`np.expand_dims(image, 2)` on a 2-d array and `np.expand_dims(image, 3)` on a
3-d array append a final axis). -/
def npExpandDims (a : NDArray) : NDArray :=
  { a with shape := a.shape ++ [1] }

/-- `np.ones(n)` : a 1-d float array of `n` ones. -/
def npOnes (n : Nat) : NDArray :=
  { shape := [n], dtype := .float, data := List.replicate n 1 }

/-- `np.ones_like(a, dtype=bool)` : an all-true boolean array of `a`'s shape. -/
def npOnesLikeBool (a : NDArray) : NDArray :=
  { shape := a.shape, dtype := .bool, data := List.replicate a.size 1 }

/-- Model of a `scipy.sparse.csr_matrix` as the wrapper observes it:
its shape and its `data` / `indices` / `indptr` component arrays. -/
structure CSRMatrix where
  rows : Nat
  cols : Nat
  data : List Rat
  indices : List Nat
  indptr : List Nat
deriving DecidableEq, Repr

/-- A Python object passed where an array-like is expected: an `ndarray`, a
CSR matrix, or any other object (which fails the `isinstance` checks). -/
inductive PyObj where
  | array (a : NDArray)
  | csr (g : CSRMatrix)
  | obj
deriving DecidableEq, Repr

/-- Exceptions raised by the wrapper layer. -/
inductive PyError where
  | valueError (msg : String)
  | typeError (msg : String)
  | notImplementedError
deriving DecidableEq, Repr

/-- The four IFT output maps: costs, roots, predecessors and labels. -/
abbrev Maps4 := NDArray × NDArray × NDArray × NDArray

/-- Two output maps: costs and roots. -/
abbrev Maps2 := NDArray × NDArray

/-- Per-root tree statistics table (mean feature vector and sample count). -/
abbrev TreeStats := List (NDArray × Nat)

/-- The opaque `_pyift` C extension: one function per backend the wrapper may
invoke.  The wrapper definitions below take an arbitrary `Core`, so nothing
is assumed about the core's behaviour. -/
structure Core where
  seed_competition_grid : NDArray → NDArray → Maps4
  seed_competition_graph : List Rat → List Nat → List Nat → NDArray → Maps4
  dynamic_arc_weight_grid_exp_decay : NDArray → NDArray → Rat → Maps4 × TreeStats
  dynamic_arc_weight_grid_label : NDArray → NDArray → Maps4 × TreeStats
  dynamic_arc_weight_grid_root : NDArray → NDArray → Maps4 × TreeStats
  euclidean_distance_transform_grid : NDArray → NDArray → Maps2
  watershed_from_minima_grid : NDArray → NDArray → Rat → Maps2

/-- Grid normalization shared verbatim by `seed_competition` (lines 89-96)
and `dynamic_arc_weight` (lines 186-193): a 2-d image, or a 3-d image with
`image_3d` set, gets a trailing feature axis of extent 1. -/
def normalizeGrid (a : NDArray) (image_3d : Bool) : NDArray :=
  if a.ndim = 2 then npExpandDims a
  else if a.ndim = 3 ∧ image_3d then npExpandDims a
  else a

/-- `seed_competition(seeds, image=None, graph=None, image_3d=False)`,
translated clause by clause from `shortestpath.py` lines 76-118. -/
def seed_competition (core : Core) (seeds : NDArray)
    (image : Option PyObj) (graph : Option PyObj) (image_3d : Bool) :
    Except PyError Maps4 :=
  match image, graph with
  | none, none =>
    .error (.valueError "`image` or `graph` must be provided.")
  | some _, some _ =>
    .error (.valueError "`image` and `graph` present, only one must be provided.")
  | some imageObj, none =>
    match imageObj with
    | .array image0 =>
      if image0.ndim < 2 ∨ 4 < image0.ndim then
        .error (.valueError "`image` must be a 2, 3 or 4-dimensional array.")
      else if image0.ndim = 2 ∧ image_3d then
        .error (.valueError "2-dimensional array cannot be converted to an 3D grid.")
      else
        let image1 := normalizeGrid image0 image_3d
        if image1.shape.dropLast ≠ seeds.shape then
          .error (.valueError "`image` grid and `seeds` must have the same dimensions.")
        else
          .ok (core.seed_competition_grid image1 seeds)
    | _ => .error (.typeError "`image` must be a `ndarray`.")
  | none, some graphObj =>
    match graphObj with
    | .csr g =>
      if g.rows ≠ g.cols then
        .error (.valueError "`graph` must be a square adjacency matrix.")
      else if seeds.ndim ≠ 1 then
        .error (.valueError "`seeds` must be a 1-dimensional array.")
      else if seeds.shape.headD 0 ≠ g.rows then
        .error (.valueError "`graph` and `seeds` dimensions does not match.")
      else
        .ok (core.seed_competition_graph g.data g.indices g.indptr seeds)
    | _ => .error (.typeError "`graph` must be a `csr_matrix`.")

/-- `dynamic_arc_weight(seeds, image, image_3d=False, mode='root', alpha=0.5)`,
translated clause by clause from `shortestpath.py` lines 173-205. -/
def dynamic_arc_weight (core : Core) (seeds : NDArray) (image : PyObj)
    (image_3d : Bool) (mode : String) (alpha : Rat) :
    Except PyError (Maps4 × TreeStats) :=
  if ¬ (mode = "exp" ∨ mode = "label" ∨ mode = "root") then
    .error (.valueError "`mode` must belong to ('exp', 'label', 'root')")
  else
    match image with
    | .array image0 =>
      if image0.ndim < 2 ∨ 4 < image0.ndim then
        .error (.valueError "`image` must be a 2, 3 or 4-dimensional array.")
      else if alpha < 0 ∨ 1 < alpha then
        .error (.valueError "`alpha` must be between 0 and 1")
      else if image0.ndim = 2 ∧ image_3d then
        .error (.valueError "2-dimensional array cannot be converted to an 3D grid.")
      else
        let image1 := normalizeGrid image0 image_3d
        if image1.shape.dropLast ≠ seeds.shape then
          .error (.valueError "`image` grid and `seeds` must have the same dimensions.")
        else if mode = "exp" then
          .ok (core.dynamic_arc_weight_grid_exp_decay image1 seeds alpha)
        else if mode = "label" then
          .ok (core.dynamic_arc_weight_grid_label image1 seeds)
        else if mode = "root" then
          .ok (core.dynamic_arc_weight_grid_root image1 seeds)
        else
          .error .notImplementedError
    | _ => .error (.typeError "`image` must be a `ndarray`.")

/-- Lines 258-259: a length-2 scales is replaced by
`np.array((1, scales[0], scales[1]))`; any other scales is kept as is. -/
def normalizeScales (scales0 : NDArray) : NDArray :=
  if scales0.shape.headD 0 = 2 then
    { shape := [3], dtype := .float, data := 1 :: scales0.data.take 2 }
  else scales0

/-- `distance_transform_edt(mask, scales=None)`, translated clause by clause
from `shortestpath.py` lines 246-269.  `scales` arrives after `np.asarray`
normalization, so it is modelled directly as an optional `NDArray`; the final
statement keeps only the first component of the core's pair (the distance
map), discarding the nearest-boundary root map. -/
def distance_transform_edt (core : Core) (mask : PyObj)
    (scales : Option NDArray) : Except PyError NDArray :=
  match mask with
  | .array m =>
    if (scales.getD (npOnes 3)).ndim ≠ 1 then
      .error (.valueError "`scales` must be a 1-dimensional array.")
    else if (normalizeScales (scales.getD (npOnes 3))).shape.headD 0 ≠ 3 then
      .error (.valueError "`scales` must be a 2 or 3-dimensional array.")
    else if m.ndim < 2 ∨ 3 < m.ndim then
      .error (.valueError "`image` must be a 2 or 3-dimensional array.")
    else
      .ok (core.euclidean_distance_transform_grid m.astypeBool
        (normalizeScales (scales.getD (npOnes 3)))).1
  | _ => .error (.typeError "`mask` must be a `ndarray`.")

/-- `watershed_from_minima(image, mask=None, penalization=1.0)`, translated
clause by clause from `shortestpath.py` lines 314-330. -/
def watershed_from_minima (core : Core) (image : PyObj)
    (mask : Option PyObj) (penalization : Rat) : Except PyError Maps2 :=
  match image with
  | .array img =>
    let maskObj := mask.getD (.array (npOnesLikeBool img))
    match maskObj with
    | .array m =>
      if img.shape ≠ m.shape then
        .error (.valueError "`image` and `mask` must have the same dimensions.")
      else if img.ndim < 2 ∨ 3 < img.ndim then
        .error (.valueError "`image` must be a 2 or 3-dimensional array.")
      else
        .ok (core.watershed_from_minima_grid img m.astypeBool penalization)
    | _ => .error (.typeError "`mask` must be a `ndarray`.")
  | _ => .error (.typeError "`image` must be a `ndarray`.")

/-- Default value of the `penalization` parameter of `watershed_from_minima`
(`penalization: float = 1.0` in the signature). -/
def watershedDefaultPenalization : Rat := 1

/-- Default value of the `mode` parameter of `dynamic_arc_weight`. -/
def dynamicDefaultMode : String := "root"

/-- A placeholder array, returned by the trivial core below. -/
def arr0 : NDArray := { shape := [], dtype := .int, data := [] }

/-- A trivial concrete core (constant outputs), used to evaluate the wrappers
at specific inputs. -/
def trivCore : Core where
  seed_competition_grid := fun _ _ => (arr0, arr0, arr0, arr0)
  seed_competition_graph := fun _ _ _ _ => (arr0, arr0, arr0, arr0)
  dynamic_arc_weight_grid_exp_decay := fun _ _ _ => ((arr0, arr0, arr0, arr0), [])
  dynamic_arc_weight_grid_label := fun _ _ => ((arr0, arr0, arr0, arr0), [])
  dynamic_arc_weight_grid_root := fun _ _ => ((arr0, arr0, arr0, arr0), [])
  euclidean_distance_transform_grid := fun _ _ => (arr0, arr0)
  watershed_from_minima_grid := fun _ _ _ => (arr0, arr0)

/-- A concrete core that records its arguments in its outputs, used to
observe exactly what the wrapper hands to the core. -/
def echoCore : Core where
  seed_competition_grid := fun image seeds => (image, seeds, image, seeds)
  seed_competition_graph := fun _ _ _ seeds => (seeds, seeds, seeds, seeds)
  dynamic_arc_weight_grid_exp_decay := fun image seeds a =>
    ((image, seeds, image, { shape := [1], dtype := .float, data := [a] }), [])
  dynamic_arc_weight_grid_label := fun image seeds => ((image, seeds, image, seeds), [])
  dynamic_arc_weight_grid_root := fun image seeds => ((image, seeds, image, seeds), [])
  euclidean_distance_transform_grid := fun mask scales => (mask, scales)
  watershed_from_minima_grid := fun _ mask p =>
    ({ shape := [1], dtype := .float, data := [p] }, mask)

/-- A small integer seed array over a 2 by 2 grid. -/
def seeds2x2 : NDArray := { shape := [2, 2], dtype := .int, data := [1, 0, 0, 2] }

/-- A small 2 by 2 single-band image. -/
def image2x2 : NDArray := { shape := [2, 2], dtype := .float, data := [0, 1, 2, 3] }

/-- The same seed values with floating-point dtype. -/
def floatSeeds2x2 : NDArray := { shape := [2, 2], dtype := .float, data := [1, 0, 0, 2] }

/-- A length-1 scales array holding a positive real. -/
def scalesLen1 : NDArray := { shape := [1], dtype := .float, data := [2] }

/-- Coercion to boolean dtype is idempotent. -/
theorem NDArray.astypeBool_idem (a : NDArray) :
    a.astypeBool.astypeBool = a.astypeBool := by
  simp only [NDArray.astypeBool, List.map_map, NDArray.mk.injEq, true_and]
  refine List.map_congr_left fun v _ => ?_
  by_cases h : v = 0 <;> simp [h, Function.comp]

/-- Coercion to boolean dtype preserves the shape. -/
theorem NDArray.astypeBool_shape (a : NDArray) : a.astypeBool.shape = a.shape := rfl

/-- Coercion to boolean dtype preserves the number of axes. -/
theorem NDArray.astypeBool_ndim (a : NDArray) : a.astypeBool.ndim = a.ndim := rfl

/-- Unfolding lemma: `distance_transform_edt` on an actual array mask. -/
theorem distance_transform_edt_array_eq (core : Core) (m : NDArray)
    (scales : Option NDArray) :
    distance_transform_edt core (.array m) scales =
      if (scales.getD (npOnes 3)).ndim ≠ 1 then
        .error (.valueError "`scales` must be a 1-dimensional array.")
      else if (normalizeScales (scales.getD (npOnes 3))).shape.headD 0 ≠ 3 then
        .error (.valueError "`scales` must be a 2 or 3-dimensional array.")
      else if m.ndim < 2 ∨ 3 < m.ndim then
        .error (.valueError "`image` must be a 2 or 3-dimensional array.")
      else
        .ok (core.euclidean_distance_transform_grid m.astypeBool
          (normalizeScales (scales.getD (npOnes 3)))).1 := rfl

/-- C4: `distance_transform_edt` returns the Euclidean distance map alone:
whenever the call succeeds, the returned array is exactly the first component
of the core's result pair, the nearest-boundary root map (second component)
being discarded; consequently, whenever the core's distance component keeps
its mask argument's shape, the result has the shape of `mask`. -/
theorem distance_transform_edt_returns_distance_only (core : Core)
    (m : NDArray) (scales : Option NDArray) (d : NDArray)
    (hok : distance_transform_edt core (.array m) scales = .ok d) :
    (∃ s1, d = (core.euclidean_distance_transform_grid m.astypeBool s1).1)
    ∧ ((∀ x y, ((core.euclidean_distance_transform_grid x y).1).shape = x.shape) →
        d.shape = m.shape) := by
  rw [distance_transform_edt_array_eq] at hok
  split at hok
  · exact absurd hok (by simp)
  · split at hok
    · exact absurd hok (by simp)
    · split at hok
      · exact absurd hok (by simp)
      · obtain rfl : (core.euclidean_distance_transform_grid m.astypeBool
            (normalizeScales (scales.getD (npOnes 3)))).1 = d :=
          Except.ok.inj hok
        exact ⟨⟨_, rfl⟩, fun hsh => by rw [hsh, NDArray.astypeBool_shape]⟩

/-- C4 witness: evaluating the theorem at the 2 by 2 fixture with omitted
scales and the argument-echoing core. -/
theorem distance_transform_edt_returns_distance_only_witness :
    (∃ s1, image2x2.astypeBool
        = (echoCore.euclidean_distance_transform_grid image2x2.astypeBool s1).1)
    ∧ ((∀ x y, ((echoCore.euclidean_distance_transform_grid x y).1).shape = x.shape) →
        image2x2.astypeBool.shape = image2x2.shape) :=
  distance_transform_edt_returns_distance_only echoCore image2x2 none
    image2x2.astypeBool (by rfl)

/-- C10: when `scales` has length 2, the wrapper always passes the length-3
vector (1, scales[0], scales[1]) to the core: the leading axis scale is
implicitly fixed to 1, so for a 3-dimensional mask a length-2 scales only
sets the last two axes. -/
theorem distance_transform_edt_len2_scales (core : Core) (m s : NDArray)
    (a b : Rat) (hs : s.shape = [2]) (hd : s.data = [a, b])
    (hm : 2 ≤ m.ndim) (hm3 : m.ndim ≤ 3) :
    distance_transform_edt core (.array m) (some s)
      = .ok (core.euclidean_distance_transform_grid m.astypeBool
          { shape := [3], dtype := .float, data := [1, a, b] }).1 := by
  have h1 : ¬ (m.ndim < 2 ∨ 3 < m.ndim) := by omega
  have hnds : s.ndim = 1 := by simp [NDArray.ndim, hs]
  have hns : normalizeScales s = { shape := [3], dtype := .float, data := [1, a, b] } := by
    simp [normalizeScales, hs, hd]
  rw [distance_transform_edt_array_eq]
  simp [hnds, hns, h1]

/-- C10 witness: a 3-dimensional mask with scales (2, 3) reaches the core
with scales (1, 2, 3). -/
theorem distance_transform_edt_len2_scales_witness :
    distance_transform_edt trivCore
        (.array { shape := [2, 2, 2], dtype := .bool, data := [1, 0, 1, 0, 1, 0, 1, 0] })
        (some { shape := [2], dtype := .float, data := [2, 3] })
      = .ok (trivCore.euclidean_distance_transform_grid
          ({ shape := [2, 2, 2], dtype := .bool,
             data := [1, 0, 1, 0, 1, 0, 1, 0] } : NDArray).astypeBool
          { shape := [3], dtype := .float, data := [1, 2, 3] }).1 :=
  distance_transform_edt_len2_scales trivCore _ _ 2 3 rfl rfl (by decide) (by decide)

/-- C3 counterexample: a length-1 scales argument holding a positive real is
rejected with a ValueError, so arity 1 is not accepted as the claim states. -/
theorem distance_transform_edt_rejects_len1_scales :
    distance_transform_edt trivCore (.array image2x2) (some scalesLen1)
      = .error (.valueError "`scales` must be a 2 or 3-dimensional array.") := by
  rfl

/-- C3 (amended): `distance_transform_edt` accepts a scales argument of 2 or
3 reals, computing the distance map for these two arities; every other
length — in particular a single real — is rejected with a ValueError, and an
omitted scales defaults to all ones (length 3). -/
theorem distance_transform_edt_scales_arity (core : Core) (m s : NDArray)
    (hm : 2 ≤ m.ndim) (hm3 : m.ndim ≤ 3) :
    (s.ndim = 1 → (s.shape.headD 0 = 2 ∨ s.shape.headD 0 = 3) →
      ∃ r, distance_transform_edt core (.array m) (some s) = .ok r)
    ∧ (s.ndim = 1 → s.shape.headD 0 ≠ 2 → s.shape.headD 0 ≠ 3 →
      distance_transform_edt core (.array m) (some s)
        = .error (.valueError "`scales` must be a 2 or 3-dimensional array."))
    ∧ distance_transform_edt core (.array m) none
      = .ok (core.euclidean_distance_transform_grid m.astypeBool (npOnes 3)).1 := by
  have h1 : ¬ (m.ndim < 2 ∨ 3 < m.ndim) := by omega
  refine ⟨fun hnd harity => ?_, fun hnd h2 h3 => ?_, ?_⟩
  · have hns : (normalizeScales s).shape.headD 0 = 3 := by
      unfold normalizeScales
      rcases harity with h2 | h3
      · rw [if_pos h2]; rfl
      · by_cases h2 : s.shape.headD 0 = 2
        · rw [if_pos h2]; rfl
        · rw [if_neg h2]; exact h3
    refine ⟨(core.euclidean_distance_transform_grid m.astypeBool
      (normalizeScales s)).1, ?_⟩
    rw [distance_transform_edt_array_eq, Option.getD_some,
      if_neg (not_ne_iff.mpr hnd), if_neg (not_ne_iff.mpr hns), if_neg h1]
  · have hns : (normalizeScales s).shape.headD 0 ≠ 3 := by
      unfold normalizeScales
      rw [if_neg h2]; exact h3
    rw [distance_transform_edt_array_eq, Option.getD_some,
      if_neg (not_ne_iff.mpr hnd), if_pos hns]
  · have hns : normalizeScales (npOnes 3) = npOnes 3 := rfl
    rw [distance_transform_edt_array_eq, Option.getD_none, hns,
      if_neg (by decide), if_neg (by decide), if_neg h1]

/-- C3 witness: at the 2 by 2 mask fixture and the length-1 scales fixture,
length 1 falls in the rejected case while the default succeeds. -/
theorem distance_transform_edt_scales_arity_witness :
    ((scalesLen1.ndim = 1 →
        (scalesLen1.shape.headD 0 = 2 ∨ scalesLen1.shape.headD 0 = 3) →
      ∃ r, distance_transform_edt trivCore (.array image2x2) (some scalesLen1) = .ok r)
    ∧ (scalesLen1.ndim = 1 → scalesLen1.shape.headD 0 ≠ 2 →
        scalesLen1.shape.headD 0 ≠ 3 →
      distance_transform_edt trivCore (.array image2x2) (some scalesLen1)
        = .error (.valueError "`scales` must be a 2 or 3-dimensional array."))
    ∧ distance_transform_edt trivCore (.array image2x2) none
      = .ok (trivCore.euclidean_distance_transform_grid image2x2.astypeBool
          (npOnes 3)).1) :=
  distance_transform_edt_scales_arity trivCore image2x2 scalesLen1
    (by decide) (by decide)

/-- C5 counterexample: penalization -1 (non-positive) is not rejected by the
wrapper: the call succeeds and the core executes, receiving -1 (observable
through the argument-echoing core's first output). -/
theorem watershed_negative_penalization_reaches_core :
    watershed_from_minima echoCore (.array image2x2) none (-1)
      = .ok ({ shape := [1], dtype := .float, data := [-1] },
          { shape := [2, 2], dtype := .bool, data := [1, 1, 1, 1] }) := by
  rfl

/-- C5 (amended): `watershed_from_minima` performs no range check on
penalization: for every value, non-positive included, a call with a valid
image hands penalization to the core unchanged. -/
theorem watershed_penalization_passthrough (core : Core) (img : NDArray)
    (p : Rat) (h2 : 2 ≤ img.ndim) (h3 : img.ndim ≤ 3) :
    watershed_from_minima core (.array img) none p
      = .ok (core.watershed_from_minima_grid img
          (npOnesLikeBool img).astypeBool p) := by
  have h1 : ¬ (img.ndim < 2 ∨ 3 < img.ndim) := by omega
  unfold watershed_from_minima
  simp [npOnesLikeBool, h1]

/-- C5 witness: penalization -2 flows to the core at the 2 by 2 fixture. -/
theorem watershed_penalization_passthrough_witness :
    watershed_from_minima trivCore (.array image2x2) none (-2)
      = .ok (trivCore.watershed_from_minima_grid image2x2
          (npOnesLikeBool image2x2).astypeBool (-2)) :=
  watershed_penalization_passthrough trivCore image2x2 (-2) (by decide) (by decide)

/-- C8: calling `watershed_from_minima` with mask omitted is equivalent to
calling it with an all-true boolean mask of the image's shape, and the
omitted penalization defaults to 1.0. -/
theorem watershed_mask_default (core : Core) (img m : NDArray) (p : Rat)
    (hm : m = npOnesLikeBool img) :
    watershed_from_minima core (.array img) none p
      = watershed_from_minima core (.array img) (some (.array m)) p
    ∧ watershedDefaultPenalization = 1 := by
  subst hm
  exact ⟨rfl, rfl⟩

/-- C8 witness: the equivalence at the 2 by 2 fixture with penalization 5. -/
theorem watershed_mask_default_witness :
    (watershed_from_minima trivCore (.array image2x2) none 5
      = watershed_from_minima trivCore (.array image2x2)
          (some (.array (npOnesLikeBool image2x2))) 5)
    ∧ watershedDefaultPenalization = 1 :=
  watershed_mask_default trivCore image2x2 (npOnesLikeBool image2x2) 5 rfl

/-- Unfolding lemma: `dynamic_arc_weight` on an actual array image. -/
theorem dynamic_arc_weight_array_eq (core : Core) (seeds image0 : NDArray)
    (b : Bool) (mode : String) (alpha : Rat) :
    dynamic_arc_weight core seeds (.array image0) b mode alpha =
      if ¬ (mode = "exp" ∨ mode = "label" ∨ mode = "root") then
        .error (.valueError "`mode` must belong to ('exp', 'label', 'root')")
      else if image0.ndim < 2 ∨ 4 < image0.ndim then
        .error (.valueError "`image` must be a 2, 3 or 4-dimensional array.")
      else if alpha < 0 ∨ 1 < alpha then
        .error (.valueError "`alpha` must be between 0 and 1")
      else if image0.ndim = 2 ∧ b then
        .error (.valueError "2-dimensional array cannot be converted to an 3D grid.")
      else if (normalizeGrid image0 b).shape.dropLast ≠ seeds.shape then
        .error (.valueError "`image` grid and `seeds` must have the same dimensions.")
      else if mode = "exp" then
        .ok (core.dynamic_arc_weight_grid_exp_decay (normalizeGrid image0 b) seeds alpha)
      else if mode = "label" then
        .ok (core.dynamic_arc_weight_grid_label (normalizeGrid image0 b) seeds)
      else if mode = "root" then
        .ok (core.dynamic_arc_weight_grid_root (normalizeGrid image0 b) seeds)
      else
        .error .notImplementedError := rfl

/-- C2 counterexample: with mode 'root', changing only alpha from 0 to 2
changes the outcome from success to a ValueError, because alpha is
range-checked for every mode, not only for mode 'exp'. -/
theorem dynamic_arc_weight_alpha_not_ignored :
    dynamic_arc_weight trivCore seeds2x2 (.array image2x2) false "root" 0
        = .ok ((arr0, arr0, arr0, arr0), [])
    ∧ dynamic_arc_weight trivCore seeds2x2 (.array image2x2) false "root" 2
        = .error (.valueError "`alpha` must be between 0 and 1")
    ∧ (Except.ok ((arr0, arr0, arr0, arr0), ([] : TreeStats))
        : Except PyError (Maps4 × TreeStats))
        ≠ .error (.valueError "`alpha` must be between 0 and 1") := by
  refine ⟨by rfl, by rfl, ?_⟩
  intro h
  exact Except.noConfusion h

/-- C2 (amended): alpha is range-checked for every mode but otherwise used
only when mode is 'exp': two calls with mode 'root' or 'label' that differ
only in their alpha argument return the same result whenever both alphas lie
in the documented range [0, 1]. -/
theorem dynamic_arc_weight_alpha_only_exp (core : Core) (seeds : NDArray)
    (image : PyObj) (b : Bool) (mode : String) (a1 a2 : Rat)
    (hm : mode = "root" ∨ mode = "label")
    (h10 : 0 ≤ a1) (h11 : a1 ≤ 1) (h20 : 0 ≤ a2) (h21 : a2 ≤ 1) :
    dynamic_arc_weight core seeds image b mode a1
      = dynamic_arc_weight core seeds image b mode a2 := by
  have e1 : ¬ (a1 < 0 ∨ 1 < a1) := by push_neg; exact ⟨h10, h11⟩
  have e2 : ¬ (a2 < 0 ∨ 1 < a2) := by push_neg; exact ⟨h20, h21⟩
  cases image with
  | array image0 =>
    by_cases hnd : image0.ndim < 2 ∨ 4 < image0.ndim
    · rcases hm with rfl | rfl <;>
        rw [dynamic_arc_weight_array_eq, dynamic_arc_weight_array_eq] <;>
        simp [hnd]
    · rcases hm with rfl | rfl <;>
        rw [dynamic_arc_weight_array_eq, dynamic_arc_weight_array_eq] <;>
        simp [hnd, e1, e2]
  | csr g => rcases hm with rfl | rfl <;> rfl
  | obj => rcases hm with rfl | rfl <;> rfl

/-- C2 witness: equal results for mode 'root' at alphas 0 and 1. -/
theorem dynamic_arc_weight_alpha_only_exp_witness :
    dynamic_arc_weight trivCore seeds2x2 (.array image2x2) false "root" 0
      = dynamic_arc_weight trivCore seeds2x2 (.array image2x2) false "root" 1 :=
  dynamic_arc_weight_alpha_only_exp trivCore seeds2x2 (.array image2x2) false
    "root" 0 1 (Or.inl rfl) (by decide) (by decide) (by decide) (by decide)

/-- C7: `dynamic_arc_weight` raises a ValueError for any mode outside
root / label / exp before the core executes (for every input and every core),
and for each of the three valid modes with otherwise valid inputs it invokes
exactly the corresponding core policy backend, returning its result. -/
theorem dynamic_arc_weight_mode_dispatch (core : Core) (seeds img : NDArray)
    (b : Bool) (alpha : Rat)
    (hnd2 : 2 ≤ img.ndim) (hnd4 : img.ndim ≤ 4)
    (ha0 : 0 ≤ alpha) (ha1 : alpha ≤ 1)
    (h2d : ¬ (img.ndim = 2 ∧ b))
    (hsh : (normalizeGrid img b).shape.dropLast = seeds.shape) :
    (∀ (mode : String), ¬ (mode = "exp" ∨ mode = "label" ∨ mode = "root") →
      ∀ (core2 : Core) (seeds2 : NDArray) (image2 : PyObj) (b2 : Bool) (alpha2 : Rat),
        dynamic_arc_weight core2 seeds2 image2 b2 mode alpha2
          = .error (.valueError "`mode` must belong to ('exp', 'label', 'root')"))
    ∧ dynamic_arc_weight core seeds (.array img) b "exp" alpha
        = .ok (core.dynamic_arc_weight_grid_exp_decay (normalizeGrid img b) seeds alpha)
    ∧ dynamic_arc_weight core seeds (.array img) b "label" alpha
        = .ok (core.dynamic_arc_weight_grid_label (normalizeGrid img b) seeds)
    ∧ dynamic_arc_weight core seeds (.array img) b "root" alpha
        = .ok (core.dynamic_arc_weight_grid_root (normalizeGrid img b) seeds) := by
  have hnd : ¬ (img.ndim < 2 ∨ 4 < img.ndim) := by omega
  have ha : ¬ (alpha < 0 ∨ 1 < alpha) := by push_neg; exact ⟨ha0, ha1⟩
  have hsh' : ¬ ((normalizeGrid img b).shape.dropLast ≠ seeds.shape) :=
    not_ne_iff.mpr hsh
  refine ⟨fun mode hmode core2 seeds2 image2 b2 alpha2 => ?_, ?_, ?_, ?_⟩
  · unfold dynamic_arc_weight
    rw [if_pos hmode]
  · rw [dynamic_arc_weight_array_eq, if_neg (by decide), if_neg hnd, if_neg ha,
      if_neg h2d, if_neg hsh', if_pos rfl]
  · rw [dynamic_arc_weight_array_eq, if_neg (by decide), if_neg hnd, if_neg ha,
      if_neg h2d, if_neg hsh', if_neg (by decide), if_pos rfl]
  · rw [dynamic_arc_weight_array_eq, if_neg (by decide), if_neg hnd, if_neg ha,
      if_neg h2d, if_neg hsh', if_neg (by decide), if_neg (by decide), if_pos rfl]

/-- Unfolding lemma: `seed_competition` on an actual array image. -/
theorem seed_competition_image_eq (core : Core) (seeds image0 : NDArray) (b : Bool) :
    seed_competition core seeds (some (.array image0)) none b =
      if image0.ndim < 2 ∨ 4 < image0.ndim then
        .error (.valueError "`image` must be a 2, 3 or 4-dimensional array.")
      else if image0.ndim = 2 ∧ b then
        .error (.valueError "2-dimensional array cannot be converted to an 3D grid.")
      else if (normalizeGrid image0 b).shape.dropLast ≠ seeds.shape then
        .error (.valueError "`image` grid and `seeds` must have the same dimensions.")
      else
        .ok (core.seed_competition_grid (normalizeGrid image0 b) seeds) := rfl

/-- Unfolding lemma: `seed_competition` on an actual CSR graph. -/
theorem seed_competition_graph_eq (core : Core) (seeds : NDArray)
    (g : CSRMatrix) (b : Bool) :
    seed_competition core seeds none (some (.csr g)) b =
      if g.rows ≠ g.cols then
        .error (.valueError "`graph` must be a square adjacency matrix.")
      else if seeds.ndim ≠ 1 then
        .error (.valueError "`seeds` must be a 1-dimensional array.")
      else if seeds.shape.headD 0 ≠ g.rows then
        .error (.valueError "`graph` and `seeds` dimensions does not match.")
      else
        .ok (core.seed_competition_graph g.data g.indices g.indptr seeds) := rfl

/-- Validity of a `seed_competition` call, stated from the claim's words:
exactly one of image and graph is supplied; an image must be an ndarray of
2 to 4 dimensions, not 2-dimensional together with `image_3d`, and its
normalized grid shape (shape without the last, feature-vector axis) must
equal the seeds shape; a graph must be a square CSR matrix with seeds a
1-dimensional array whose length equals the node count. -/
def seedCompetitionValid (seeds : NDArray) (image graph : Option PyObj)
    (image_3d : Bool) : Prop :=
  (∃ a, image = some (.array a) ∧ graph = none ∧
      2 ≤ a.ndim ∧ a.ndim ≤ 4 ∧ ¬ (a.ndim = 2 ∧ image_3d = true) ∧
      (normalizeGrid a image_3d).shape.dropLast = seeds.shape)
  ∨ (∃ g, image = none ∧ graph = some (.csr g) ∧ g.rows = g.cols ∧
      seeds.ndim = 1 ∧ seeds.shape.headD 0 = g.rows)

/-- C1: `seed_competition` succeeds exactly on valid inputs; every invalid
input is rejected with an exception computed independently of the core (so
the error is raised before the core executes); and on valid inputs it
invokes the matching core backend exactly once, returning its four maps
unchanged. -/
theorem seed_competition_contract (core : Core) (seeds : NDArray)
    (image graph : Option PyObj) (b : Bool) :
    ((∃ r, seed_competition core seeds image graph b = .ok r)
      ↔ seedCompetitionValid seeds image graph b)
    ∧ (∀ core2 : Core, ¬ seedCompetitionValid seeds image graph b →
        seed_competition core seeds image graph b
          = seed_competition core2 seeds image graph b)
    ∧ (∀ a : NDArray, image = some (.array a) → graph = none →
        2 ≤ a.ndim → a.ndim ≤ 4 → ¬ (a.ndim = 2 ∧ b = true) →
        (normalizeGrid a b).shape.dropLast = seeds.shape →
        seed_competition core seeds image graph b
          = .ok (core.seed_competition_grid (normalizeGrid a b) seeds))
    ∧ (∀ g : CSRMatrix, image = none → graph = some (.csr g) →
        g.rows = g.cols → seeds.ndim = 1 → seeds.shape.headD 0 = g.rows →
        seed_competition core seeds image graph b
          = .ok (core.seed_competition_graph g.data g.indices g.indptr seeds)) := by
  have himg : ∀ (a : NDArray), 2 ≤ a.ndim → a.ndim ≤ 4 →
      ¬ (a.ndim = 2 ∧ b = true) →
      (normalizeGrid a b).shape.dropLast = seeds.shape →
      ∀ core3 : Core, seed_competition core3 seeds (some (.array a)) none b
        = .ok (core3.seed_competition_grid (normalizeGrid a b) seeds) := by
    intro a h2 h4 h2d hsh core3
    have hnd : ¬ (a.ndim < 2 ∨ 4 < a.ndim) := by omega
    rw [seed_competition_image_eq, if_neg hnd, if_neg h2d,
      if_neg (not_ne_iff.mpr hsh)]
  have hgr : ∀ (g : CSRMatrix), g.rows = g.cols → seeds.ndim = 1 →
      seeds.shape.headD 0 = g.rows →
      ∀ core3 : Core, seed_competition core3 seeds none (some (.csr g)) b
        = .ok (core3.seed_competition_graph g.data g.indices g.indptr seeds) := by
    intro g hsq hnd1 hlen core3
    rw [seed_competition_graph_eq, if_neg (not_ne_iff.mpr hsq),
      if_neg (not_ne_iff.mpr hnd1), if_neg (not_ne_iff.mpr hlen)]
  refine ⟨⟨?_, ?_⟩, ?_, ?_, ?_⟩
  · rintro ⟨r, hr⟩
    cases image with
    | none =>
      cases graph with
      | none => exact absurd hr (by simp [seed_competition])
      | some gobj =>
        cases gobj with
        | array a => exact absurd hr (by simp [seed_competition])
        | obj => exact absurd hr (by simp [seed_competition])
        | csr g =>
          rw [seed_competition_graph_eq] at hr
          split at hr
          · exact absurd hr (by simp)
          · split at hr
            · exact absurd hr (by simp)
            · split at hr
              · exact absurd hr (by simp)
              · rename_i h1 h2 h3
                exact Or.inr ⟨g, rfl, rfl, not_ne_iff.mp h1,
                  not_ne_iff.mp h2, not_ne_iff.mp h3⟩
    | some iobj =>
      cases graph with
      | some gobj => exact absurd hr (by simp [seed_competition])
      | none =>
        cases iobj with
        | csr g => exact absurd hr (by simp [seed_competition])
        | obj => exact absurd hr (by simp [seed_competition])
        | array a =>
          rw [seed_competition_image_eq] at hr
          split at hr
          · exact absurd hr (by simp)
          · split at hr
            · exact absurd hr (by simp)
            · split at hr
              · exact absurd hr (by simp)
              · rename_i h1 h2 h3
                refine Or.inl ⟨a, rfl, rfl, by omega, by omega, h2,
                  not_ne_iff.mp h3⟩
  · rintro (⟨a, rfl, rfl, h2, h4, h2d, hsh⟩ | ⟨g, rfl, rfl, hsq, hnd1, hlen⟩)
    · exact ⟨_, himg a h2 h4 h2d hsh core⟩
    · exact ⟨_, hgr g hsq hnd1 hlen core⟩
  · intro core2 hinval
    cases image with
    | none =>
      cases graph with
      | none => rfl
      | some gobj =>
        cases gobj with
        | array a => rfl
        | obj => rfl
        | csr g =>
          rw [seed_competition_graph_eq, seed_competition_graph_eq]
          by_cases h1 : g.rows ≠ g.cols
          · rw [if_pos h1, if_pos h1]
          · by_cases h2 : seeds.ndim ≠ 1
            · rw [if_neg h1, if_pos h2, if_neg h1, if_pos h2]
            · by_cases h3 : seeds.shape.headD 0 ≠ g.rows
              · rw [if_neg h1, if_neg h2, if_pos h3, if_neg h1, if_neg h2,
                  if_pos h3]
              · exact absurd (Or.inr ⟨g, rfl, rfl, not_ne_iff.mp h1,
                  not_ne_iff.mp h2, not_ne_iff.mp h3⟩) hinval
    | some iobj =>
      cases graph with
      | some gobj => rfl
      | none =>
        cases iobj with
        | csr g => rfl
        | obj => rfl
        | array a =>
          rw [seed_competition_image_eq, seed_competition_image_eq]
          by_cases h1 : a.ndim < 2 ∨ 4 < a.ndim
          · rw [if_pos h1, if_pos h1]
          · by_cases h2 : a.ndim = 2 ∧ b = true
            · rw [if_neg h1, if_pos h2, if_neg h1, if_pos h2]
            · by_cases h3 : (normalizeGrid a b).shape.dropLast ≠ seeds.shape
              · rw [if_neg h1, if_neg h2, if_pos h3, if_neg h1, if_neg h2,
                  if_pos h3]
              · exact absurd (Or.inl ⟨a, rfl, rfl, by omega, by omega, h2,
                  not_ne_iff.mp h3⟩) hinval
  · rintro a rfl rfl h2 h4 h2d hsh
    exact himg a h2 h4 h2d hsh core
  · rintro g rfl rfl hsq hnd1 hlen
    exact hgr g hsq hnd1 hlen core

/-- C1 witness: the contract projected at a valid grid call on the 2 by 2
fixture, with the argument-echoing core. -/
theorem seed_competition_contract_witness :
    seed_competition echoCore seeds2x2 (some (.array image2x2)) none false
      = .ok (echoCore.seed_competition_grid (normalizeGrid image2x2 false) seeds2x2) :=
  (seed_competition_contract echoCore seeds2x2 (some (.array image2x2))
      none false).2.2.1 image2x2 rfl rfl (by decide) (by decide) (by decide)
    (by decide)

/-- C7 witness: the dispatch contract evaluated at the 2 by 2 fixture. -/
theorem dynamic_arc_weight_mode_dispatch_witness :
    (∀ (mode : String), ¬ (mode = "exp" ∨ mode = "label" ∨ mode = "root") →
      ∀ (core2 : Core) (seeds2 : NDArray) (image2 : PyObj) (b2 : Bool) (alpha2 : Rat),
        dynamic_arc_weight core2 seeds2 image2 b2 mode alpha2
          = .error (.valueError "`mode` must belong to ('exp', 'label', 'root')"))
    ∧ dynamic_arc_weight echoCore seeds2x2 (.array image2x2) false "exp" 0
        = .ok (echoCore.dynamic_arc_weight_grid_exp_decay
            (normalizeGrid image2x2 false) seeds2x2 0)
    ∧ dynamic_arc_weight echoCore seeds2x2 (.array image2x2) false "label" 0
        = .ok (echoCore.dynamic_arc_weight_grid_label
            (normalizeGrid image2x2 false) seeds2x2)
    ∧ dynamic_arc_weight echoCore seeds2x2 (.array image2x2) false "root" 0
        = .ok (echoCore.dynamic_arc_weight_grid_root
            (normalizeGrid image2x2 false) seeds2x2) :=
  dynamic_arc_weight_mode_dispatch echoCore seeds2x2 image2x2 false 0
    (by decide) (by decide) (by decide) (by decide) (by decide) (by decide)

/-- Unfolding lemma: `watershed_from_minima` on actual image and mask arrays. -/
theorem watershed_from_minima_array_eq (core : Core) (img m : NDArray) (p : Rat) :
    watershed_from_minima core (.array img) (some (.array m)) p =
      if img.shape ≠ m.shape then
        .error (.valueError "`image` and `mask` must have the same dimensions.")
      else if img.ndim < 2 ∨ 3 < img.ndim then
        .error (.valueError "`image` must be a 2 or 3-dimensional array.")
      else
        .ok (core.watershed_from_minima_grid img m.astypeBool p) := rfl

/-- C6 counterexample: `seed_competition` hands `seeds` to the core exactly
as given: with float-dtype seeds the core receives the float-dtype array
itself (the echo core returns its seeds argument), so the wrapper performs
no integer coercion on seeds. -/
theorem seed_competition_seeds_not_coerced :
    seed_competition echoCore floatSeeds2x2 (some (.array image2x2)) none false
      = .ok (npExpandDims image2x2, floatSeeds2x2, npExpandDims image2x2,
          floatSeeds2x2)
    ∧ floatSeeds2x2.dtype = .float ∧ floatSeeds2x2.dtype ≠ .int :=
  ⟨rfl, rfl, by decide⟩

/-- C6 (amended): the wrapper coerces mask dtypes but not seed dtypes:
`distance_transform_edt` and `watershed_from_minima` called with a numeric
mask behave exactly as if called with `mask.astype(bool)`, while
`seed_competition` and `dynamic_arc_weight` hand `seeds` to the core exactly
as given, with no dtype coercion by the wrapper. -/
theorem mask_coerced_seeds_passed_through (core : Core) (m img seeds a : NDArray)
    (scales : Option NDArray) (p alpha : Rat) (b : Bool)
    (hnd2 : 2 ≤ a.ndim) (hnd4 : a.ndim ≤ 4) (h2d : ¬ (a.ndim = 2 ∧ b = true))
    (hsh : (normalizeGrid a b).shape.dropLast = seeds.shape)
    (ha0 : 0 ≤ alpha) (ha1 : alpha ≤ 1) :
    distance_transform_edt core (.array m) scales
      = distance_transform_edt core (.array m.astypeBool) scales
    ∧ watershed_from_minima core (.array img) (some (.array m)) p
      = watershed_from_minima core (.array img) (some (.array m.astypeBool)) p
    ∧ seed_competition core seeds (some (.array a)) none b
      = .ok (core.seed_competition_grid (normalizeGrid a b) seeds)
    ∧ dynamic_arc_weight core seeds (.array a) b "root" alpha
      = .ok (core.dynamic_arc_weight_grid_root (normalizeGrid a b) seeds) := by
  have hnd : ¬ (a.ndim < 2 ∨ 4 < a.ndim) := by omega
  have ha : ¬ (alpha < 0 ∨ 1 < alpha) := by push_neg; exact ⟨ha0, ha1⟩
  refine ⟨?_, ?_, ?_, ?_⟩
  · rw [distance_transform_edt_array_eq, distance_transform_edt_array_eq]
    simp only [NDArray.astypeBool_ndim, NDArray.astypeBool_idem]
  · rw [watershed_from_minima_array_eq, watershed_from_minima_array_eq]
    simp only [NDArray.astypeBool_shape, NDArray.astypeBool_idem]
  · rw [seed_competition_image_eq, if_neg hnd, if_neg h2d,
      if_neg (not_ne_iff.mpr hsh)]
  · rw [dynamic_arc_weight_array_eq, if_neg (by decide), if_neg hnd, if_neg ha,
      if_neg h2d, if_neg (not_ne_iff.mpr hsh), if_neg (by decide),
      if_neg (by decide), if_pos rfl]

/-- C6 witness: the amended contract evaluated with a numeric 2 by 2 mask
and the float-dtype seed fixture. -/
theorem mask_coerced_seeds_passed_through_witness :
    distance_transform_edt echoCore (.array image2x2) none
      = distance_transform_edt echoCore (.array image2x2.astypeBool) none
    ∧ watershed_from_minima echoCore (.array image2x2) (some (.array image2x2)) 1
      = watershed_from_minima echoCore (.array image2x2)
          (some (.array image2x2.astypeBool)) 1
    ∧ seed_competition echoCore floatSeeds2x2 (some (.array image2x2)) none false
      = .ok (echoCore.seed_competition_grid (normalizeGrid image2x2 false)
          floatSeeds2x2)
    ∧ dynamic_arc_weight echoCore floatSeeds2x2 (.array image2x2) false "root" 0
      = .ok (echoCore.dynamic_arc_weight_grid_root (normalizeGrid image2x2 false)
          floatSeeds2x2) :=
  mask_coerced_seeds_passed_through echoCore image2x2 image2x2 floatSeeds2x2
    image2x2 none 1 0 false (by decide) (by decide) (by decide) (by decide)
    (by decide) (by decide)

/-! ### Store model for the frame property

To state that no entry point mutates its input arrays, the wrappers are
re-traced over an explicit array store: a `Ref` is a Python array object's
identity, and every numpy call the wrapper makes either reads cells or
allocates fresh ones — matching numpy's documented semantics
(`np.expand_dims` returns a new array object, `astype` returns a copy,
`np.asarray` on an ndarray returns the same object, `np.ones` /
`np.ones_like` / `np.array` construct new arrays).  Nothing ever writes an
existing cell, and the theorem below proves it. -/

/-- A reference to a numpy array: the Python object identity, modelled as an
index into the allocation-ordered store. -/
abbrev Ref := Nat

/-- The array store: every numpy array reachable by the caller or the
wrapper, in allocation order. -/
abbrev Store := List NDArray

/-- Read the array a reference designates. -/
def Store.read (s : Store) (r : Ref) : Option NDArray := s.get? r

/-- Allocate a fresh array object: append to the store, return the new
reference. -/
def Store.alloc (s : Store) (a : NDArray) : Store × Ref :=
  (s ++ [a], s.length)

/-- The store grew from `s` by allocation only: it is `s` plus appended
cells, every original cell still in place. -/
def Store.grownFrom (s' s : Store) : Prop := ∃ t, s' = s ++ t

theorem Store.grownFrom_refl (s : Store) : s.grownFrom s := ⟨[], by simp⟩

theorem Store.grownFrom_trans {u t s : Store} (h1 : u.grownFrom t)
    (h2 : t.grownFrom s) : u.grownFrom s := by
  obtain ⟨x, rfl⟩ := h1
  obtain ⟨y, rfl⟩ := h2
  exact ⟨y ++ x, by simp⟩

theorem Store.read_of_grownFrom {s' s : Store} (h : s'.grownFrom s) {r : Ref}
    (hr : r < s.length) : s'.read r = s.read r := by
  obtain ⟨t, rfl⟩ := h
  exact List.get?_append hr

theorem Store.alloc_grownFrom (s : Store) (a : NDArray) :
    (s.alloc a).1.grownFrom s := ⟨[a], rfl⟩

/-- `np.expand_dims(a, a.ndim)` over the store: a new array object, the
input cell untouched. -/
def npExpandDimsS (s : Store) (r : Ref) : Store × Ref :=
  match s.read r with
  | some a => s.alloc (npExpandDims a)
  | none => (s, r)

/-- `a.astype(bool)` over the store: a fresh copy. -/
def astypeBoolS (s : Store) (r : Ref) : Store × Ref :=
  match s.read r with
  | some a => s.alloc a.astypeBool
  | none => (s, r)

/-- `np.ones_like(a, dtype=bool)` over the store: a fresh array. -/
def npOnesLikeBoolS (s : Store) (r : Ref) : Store × Ref :=
  match s.read r with
  | some a => s.alloc (npOnesLikeBool a)
  | none => (s, r)

/-- Lines 89-96 / 186-193 over the store: append a trailing axis (as a new
array object) when the dimensionality calls for it, otherwise keep the same
object. -/
def expandIfNeededS (s : Store) (r : Ref) (nd : Nat) (b : Bool) : Store × Ref :=
  if nd = 2 ∨ (nd = 3 ∧ b) then npExpandDimsS s r else (s, r)

/-- Lines 249-253 over the store: a missing scales becomes a fresh
`np.ones(3)`; `np.asarray` on an ndarray returns the same object. -/
def scalesGetS (s : Store) (scalesR : Option Ref) : Store × Ref :=
  match scalesR with
  | some r => (s, r)
  | none => s.alloc (npOnes 3)

/-- Lines 258-259 over the store: a length-2 scales is replaced by a fresh
`np.array((1, scales[0], scales[1]))`; otherwise the same object is kept. -/
def normalizeScalesS (s : Store) (r : Ref) : Store × Ref :=
  match s.read r with
  | some a =>
    if a.shape.headD 0 = 2 then s.alloc (normalizeScales a) else (s, r)
  | none => (s, r)

/-- Modelled from the spec: the `_pyift` core entry points are not under
`src/` (only their wrapper is).  Per the spec's ownership rule — "the Graph
Provider and seed/feature data are borrowed read-only inputs, never
mutated" — a core call reads its argument cells and allocates fresh output
arrays, writing no existing cell; its pure behaviour is an arbitrary
function of the arrays it read (the `coreOut` parameter below). -/
def coreCallS (s : Store) (outs : List NDArray) : Store × List Ref :=
  (s ++ outs, (List.range outs.length).map (· + s.length))

theorem coreCallS_grownFrom (s : Store) (outs : List NDArray) :
    (coreCallS s outs).1.grownFrom s := ⟨outs, rfl⟩

/-- A Python argument in the store model: a reference to an ndarray, a CSR
matrix (shape plus references to its three component arrays), or another
object. -/
inductive PyObjS where
  | array (r : Ref)
  | csr (rows cols : Nat) (dataR indicesR indptrR : Ref)
  | obj

/-- `seed_competition` re-traced over the store (lines 76-118): reads of the
inputs, the conditional `np.expand_dims`, and one core call. -/
def seed_competitionS (coreOut : List NDArray → List NDArray) (s : Store)
    (seedsR : Ref) (image graph : Option PyObjS) (b : Bool) :
    Store × Except PyError (List Ref) :=
  match image, graph with
  | none, none =>
    (s, .error (.valueError "`image` or `graph` must be provided."))
  | some _, some _ =>
    (s, .error (.valueError "`image` and `graph` present, only one must be provided."))
  | some (.array imgR), none =>
    match s.read imgR, s.read seedsR with
    | some image0, some seeds =>
      if image0.ndim < 2 ∨ 4 < image0.ndim then
        (s, .error (.valueError "`image` must be a 2, 3 or 4-dimensional array."))
      else if image0.ndim = 2 ∧ b then
        (s, .error (.valueError "2-dimensional array cannot be converted to an 3D grid."))
      else
        match (expandIfNeededS s imgR image0.ndim b).1.read
            (expandIfNeededS s imgR image0.ndim b).2 with
        | some image1 =>
          if image1.shape.dropLast ≠ seeds.shape then
            ((expandIfNeededS s imgR image0.ndim b).1,
              .error (.valueError "`image` grid and `seeds` must have the same dimensions."))
          else
            ((coreCallS (expandIfNeededS s imgR image0.ndim b).1
                (coreOut [image1, seeds])).1,
              .ok (coreCallS (expandIfNeededS s imgR image0.ndim b).1
                (coreOut [image1, seeds])).2)
        | none =>
          ((expandIfNeededS s imgR image0.ndim b).1,
            .error (.typeError "`image` must be a `ndarray`."))
    | _, _ => (s, .error (.typeError "`image` must be a `ndarray`."))
  | some _, none => (s, .error (.typeError "`image` must be a `ndarray`."))
  | none, some (.csr rows cols dataR indicesR indptrR) =>
    match s.read seedsR, s.read dataR, s.read indicesR, s.read indptrR with
    | some seeds, some gdata, some gindices, some gindptr =>
      if rows ≠ cols then
        (s, .error (.valueError "`graph` must be a square adjacency matrix."))
      else if seeds.ndim ≠ 1 then
        (s, .error (.valueError "`seeds` must be a 1-dimensional array."))
      else if seeds.shape.headD 0 ≠ rows then
        (s, .error (.valueError "`graph` and `seeds` dimensions does not match."))
      else
        ((coreCallS s (coreOut [gdata, gindices, gindptr, seeds])).1,
          .ok (coreCallS s (coreOut [gdata, gindices, gindptr, seeds])).2)
    | _, _, _, _ => (s, .error (.typeError "`graph` must be a `csr_matrix`."))
  | none, some _ => (s, .error (.typeError "`graph` must be a `csr_matrix`."))

/-- `dynamic_arc_weight` re-traced over the store (lines 173-205); `coreOut`
stands for whichever policy backend the mode selects. -/
def dynamic_arc_weightS (coreOut : List NDArray → List NDArray) (s : Store)
    (seedsR : Ref) (image : PyObjS) (b : Bool) (mode : String) (alpha : Rat) :
    Store × Except PyError (List Ref) :=
  if ¬ (mode = "exp" ∨ mode = "label" ∨ mode = "root") then
    (s, .error (.valueError "`mode` must belong to ('exp', 'label', 'root')"))
  else
    match image with
    | .array imgR =>
      match s.read imgR, s.read seedsR with
      | some image0, some seeds =>
        if image0.ndim < 2 ∨ 4 < image0.ndim then
          (s, .error (.valueError "`image` must be a 2, 3 or 4-dimensional array."))
        else if alpha < 0 ∨ 1 < alpha then
          (s, .error (.valueError "`alpha` must be between 0 and 1"))
        else if image0.ndim = 2 ∧ b then
          (s, .error (.valueError "2-dimensional array cannot be converted to an 3D grid."))
        else
          match (expandIfNeededS s imgR image0.ndim b).1.read
              (expandIfNeededS s imgR image0.ndim b).2 with
          | some image1 =>
            if image1.shape.dropLast ≠ seeds.shape then
              ((expandIfNeededS s imgR image0.ndim b).1,
                .error (.valueError "`image` grid and `seeds` must have the same dimensions."))
            else
              ((coreCallS (expandIfNeededS s imgR image0.ndim b).1
                  (coreOut [image1, seeds])).1,
                .ok (coreCallS (expandIfNeededS s imgR image0.ndim b).1
                  (coreOut [image1, seeds])).2)
          | none =>
            ((expandIfNeededS s imgR image0.ndim b).1,
              .error (.typeError "`image` must be a `ndarray`."))
      | _, _ => (s, .error (.typeError "`image` must be a `ndarray`."))
    | _ => (s, .error (.typeError "`image` must be a `ndarray`."))

/-- `distance_transform_edt` re-traced over the store (lines 246-269). -/
def distance_transform_edtS (coreOut : List NDArray → List NDArray) (s : Store)
    (mask : PyObjS) (scalesR : Option Ref) : Store × Except PyError (List Ref) :=
  match mask with
  | .array maskR =>
    match (scalesGetS s scalesR).1.read (scalesGetS s scalesR).2 with
    | some scales0 =>
      if scales0.ndim ≠ 1 then
        ((scalesGetS s scalesR).1,
          .error (.valueError "`scales` must be a 1-dimensional array."))
      else
        match (normalizeScalesS (scalesGetS s scalesR).1 (scalesGetS s scalesR).2).1.read
            (normalizeScalesS (scalesGetS s scalesR).1 (scalesGetS s scalesR).2).2,
          (normalizeScalesS (scalesGetS s scalesR).1 (scalesGetS s scalesR).2).1.read maskR with
        | some scales1, some mask0 =>
          if scales1.shape.headD 0 ≠ 3 then
            ((normalizeScalesS (scalesGetS s scalesR).1 (scalesGetS s scalesR).2).1,
              .error (.valueError "`scales` must be a 2 or 3-dimensional array."))
          else if mask0.ndim < 2 ∨ 3 < mask0.ndim then
            ((normalizeScalesS (scalesGetS s scalesR).1 (scalesGetS s scalesR).2).1,
              .error (.valueError "`image` must be a 2 or 3-dimensional array."))
          else
            ((coreCallS (astypeBoolS (normalizeScalesS (scalesGetS s scalesR).1
                  (scalesGetS s scalesR).2).1 maskR).1
                (coreOut [mask0.astypeBool, scales1])).1,
              .ok ((coreCallS (astypeBoolS (normalizeScalesS (scalesGetS s scalesR).1
                  (scalesGetS s scalesR).2).1 maskR).1
                (coreOut [mask0.astypeBool, scales1])).2.take 1))
        | _, _ =>
          ((normalizeScalesS (scalesGetS s scalesR).1 (scalesGetS s scalesR).2).1,
            .error (.typeError "`mask` must be a `ndarray`."))
    | none => (s, .error (.typeError "`mask` must be a `ndarray`."))
  | _ => (s, .error (.typeError "`mask` must be a `ndarray`."))

/-- The mask defaulting step of `watershed_from_minima` (lines 317-318) over
the store: a missing mask becomes a fresh `np.ones_like(image, dtype=bool)`. -/
def wsMaskS (s : Store) (imgR : Ref) (mask : Option PyObjS) : Store × Option PyObjS :=
  match mask with
  | some x => (s, some x)
  | none => ((npOnesLikeBoolS s imgR).1, some (.array (npOnesLikeBoolS s imgR).2))

/-- `watershed_from_minima` re-traced over the store (lines 314-330). -/
def watershed_from_minimaS (coreOut : List NDArray → List NDArray) (s : Store)
    (image : PyObjS) (mask : Option PyObjS) (p : Rat) :
    Store × Except PyError (List Ref) :=
  match image with
  | .array imgR =>
    match (wsMaskS s imgR mask).2 with
    | some (.array maskR) =>
      match (wsMaskS s imgR mask).1.read imgR, (wsMaskS s imgR mask).1.read maskR with
      | some img0, some mask0 =>
        if img0.shape ≠ mask0.shape then
          ((wsMaskS s imgR mask).1,
            .error (.valueError "`image` and `mask` must have the same dimensions."))
        else if img0.ndim < 2 ∨ 3 < img0.ndim then
          ((wsMaskS s imgR mask).1,
            .error (.valueError "`image` must be a 2 or 3-dimensional array."))
        else
          ((coreCallS (astypeBoolS (wsMaskS s imgR mask).1 maskR).1
              (coreOut [img0, mask0.astypeBool])).1,
            .ok (coreCallS (astypeBoolS (wsMaskS s imgR mask).1 maskR).1
              (coreOut [img0, mask0.astypeBool])).2)
      | _, _ =>
        ((wsMaskS s imgR mask).1, .error (.typeError "`mask` must be a `ndarray`."))
    | some _ =>
      ((wsMaskS s imgR mask).1, .error (.typeError "`mask` must be a `ndarray`."))
    | none =>
      ((wsMaskS s imgR mask).1, .error (.typeError "`mask` must be a `ndarray`."))
  | _ => (s, .error (.typeError "`image` must be a `ndarray`."))

theorem npExpandDimsS_grownFrom (s : Store) (r : Ref) :
    (npExpandDimsS s r).1.grownFrom s := by
  unfold npExpandDimsS
  split
  · exact Store.alloc_grownFrom _ _
  · exact Store.grownFrom_refl _

theorem astypeBoolS_grownFrom (s : Store) (r : Ref) :
    (astypeBoolS s r).1.grownFrom s := by
  unfold astypeBoolS
  split
  · exact Store.alloc_grownFrom _ _
  · exact Store.grownFrom_refl _

theorem npOnesLikeBoolS_grownFrom (s : Store) (r : Ref) :
    (npOnesLikeBoolS s r).1.grownFrom s := by
  unfold npOnesLikeBoolS
  split
  · exact Store.alloc_grownFrom _ _
  · exact Store.grownFrom_refl _

theorem expandIfNeededS_grownFrom (s : Store) (r : Ref) (nd : Nat) (b : Bool) :
    (expandIfNeededS s r nd b).1.grownFrom s := by
  unfold expandIfNeededS
  split
  · exact npExpandDimsS_grownFrom _ _
  · exact Store.grownFrom_refl _

theorem scalesGetS_grownFrom (s : Store) (scalesR : Option Ref) :
    (scalesGetS s scalesR).1.grownFrom s := by
  unfold scalesGetS
  split
  · exact Store.grownFrom_refl _
  · exact Store.alloc_grownFrom _ _

theorem normalizeScalesS_grownFrom (s : Store) (r : Ref) :
    (normalizeScalesS s r).1.grownFrom s := by
  unfold normalizeScalesS
  split
  · split
    · exact Store.alloc_grownFrom _ _
    · exact Store.grownFrom_refl _
  · exact Store.grownFrom_refl _

theorem wsMaskS_grownFrom (s : Store) (imgR : Ref) (mask : Option PyObjS) :
    (wsMaskS s imgR mask).1.grownFrom s := by
  unfold wsMaskS
  split
  · exact Store.grownFrom_refl _
  · exact npOnesLikeBoolS_grownFrom _ _

theorem seed_competitionS_grownFrom (coreOut : List NDArray → List NDArray)
    (s : Store) (seedsR : Ref) (image graph : Option PyObjS) (b : Bool) :
    (seed_competitionS coreOut s seedsR image graph b).1.grownFrom s := by
  unfold seed_competitionS
  repeat' split
  all_goals
    solve_by_elim [Store.grownFrom_refl, Store.grownFrom_trans,
      coreCallS_grownFrom, expandIfNeededS_grownFrom]

theorem dynamic_arc_weightS_grownFrom (coreOut : List NDArray → List NDArray)
    (s : Store) (seedsR : Ref) (image : PyObjS) (b : Bool) (mode : String)
    (alpha : Rat) :
    (dynamic_arc_weightS coreOut s seedsR image b mode alpha).1.grownFrom s := by
  unfold dynamic_arc_weightS
  repeat' split
  all_goals
    solve_by_elim [Store.grownFrom_refl, Store.grownFrom_trans,
      coreCallS_grownFrom, expandIfNeededS_grownFrom]

theorem edtScalesStage_grownFrom (s : Store) (scalesR : Option Ref) :
    (normalizeScalesS (scalesGetS s scalesR).1
      (scalesGetS s scalesR).2).1.grownFrom s :=
  Store.grownFrom_trans (normalizeScalesS_grownFrom _ _) (scalesGetS_grownFrom _ _)

theorem edtMaskStage_grownFrom (s : Store) (scalesR : Option Ref) (maskR : Ref) :
    (astypeBoolS (normalizeScalesS (scalesGetS s scalesR).1
      (scalesGetS s scalesR).2).1 maskR).1.grownFrom s :=
  Store.grownFrom_trans (astypeBoolS_grownFrom _ _) (edtScalesStage_grownFrom _ _)

theorem distance_transform_edtS_grownFrom (coreOut : List NDArray → List NDArray)
    (s : Store) (mask : PyObjS) (scalesR : Option Ref) :
    (distance_transform_edtS coreOut s mask scalesR).1.grownFrom s := by
  unfold distance_transform_edtS
  repeat' split
  all_goals
    solve_by_elim [Store.grownFrom_refl, Store.grownFrom_trans,
      coreCallS_grownFrom, scalesGetS_grownFrom, edtScalesStage_grownFrom,
      edtMaskStage_grownFrom]

theorem watershed_from_minimaS_grownFrom (coreOut : List NDArray → List NDArray)
    (s : Store) (image : PyObjS) (mask : Option PyObjS) (p : Rat) :
    (watershed_from_minimaS coreOut s image mask p).1.grownFrom s := by
  unfold watershed_from_minimaS
  repeat' split
  all_goals
    solve_by_elim [Store.grownFrom_refl, Store.grownFrom_trans,
      coreCallS_grownFrom, astypeBoolS_grownFrom, wsMaskS_grownFrom]

/-- C9: no entry point mutates its input arrays: whether the call returns or
raises, every array cell that existed before the call — in particular the
caller's seeds, image, graph component arrays, mask and scales — still holds
exactly the value it held before, for every core behaviour. -/
theorem entry_points_do_not_mutate (coreOut : List NDArray → List NDArray)
    (s : Store) (seedsR : Ref) (image graph : Option PyObjS)
    (imageS maskS : PyObjS) (maskOpt : Option PyObjS) (scalesR : Option Ref)
    (b : Bool) (mode : String) (alpha p : Rat) (r : Ref) (hr : r < s.length) :
    (seed_competitionS coreOut s seedsR image graph b).1.read r = s.read r
    ∧ (dynamic_arc_weightS coreOut s seedsR imageS b mode alpha).1.read r = s.read r
    ∧ (distance_transform_edtS coreOut s maskS scalesR).1.read r = s.read r
    ∧ (watershed_from_minimaS coreOut s imageS maskOpt p).1.read r = s.read r :=
  ⟨Store.read_of_grownFrom
      (seed_competitionS_grownFrom coreOut s seedsR image graph b) hr,
    Store.read_of_grownFrom
      (dynamic_arc_weightS_grownFrom coreOut s seedsR imageS b mode alpha) hr,
    Store.read_of_grownFrom
      (distance_transform_edtS_grownFrom coreOut s maskS scalesR) hr,
    Store.read_of_grownFrom
      (watershed_from_minimaS_grownFrom coreOut s imageS maskOpt p) hr⟩

/-- C9 witness: concrete successful runs over a two-cell store (seeds at
cell 0, image at cell 1) leave both input cells unchanged. -/
theorem entry_points_do_not_mutate_witness :
    (seed_competitionS (fun _ => []) [seeds2x2, image2x2] 0
        (some (.array 1)) none false).1.read 0
      = Store.read [seeds2x2, image2x2] 0
    ∧ (dynamic_arc_weightS (fun _ => []) [seeds2x2, image2x2] 0
        (.array 1) false "root" 0).1.read 0
      = Store.read [seeds2x2, image2x2] 0
    ∧ (distance_transform_edtS (fun _ => []) [seeds2x2, image2x2]
        (.array 1) none).1.read 0
      = Store.read [seeds2x2, image2x2] 0
    ∧ (watershed_from_minimaS (fun _ => []) [seeds2x2, image2x2]
        (.array 1) none 1).1.read 0
      = Store.read [seeds2x2, image2x2] 0 :=
  entry_points_do_not_mutate (fun _ => []) [seeds2x2, image2x2] 0
    (some (.array 1)) none (.array 1) (.array 1) none none false "root" 0 1 0
    (by decide)

end PyIFT
